/-
Verification of the accordionary widget's item state machine and
component orchestrator, as a shallow embedding of the TypeScript source
(src/init-item.ts, src/init-accordion.ts, src/select-util.ts).

The mutable DOM state an item's closures touch (the captured isOpen
boolean, the content panel's inert flag and height style, the icon's
transform/visibility styles, the heading's ARIA attributes) is embedded
as an explicit record; the open/close/toggle closures become functions
on that record, and sibling coordination becomes a function on the list
of sibling records.
-/

import Mathlib

namespace Accordionary

/-- Item-level configuration parsed from HTML attributes
(src/types: `ItemConfig`). `openOverride = none` means "inherit from
the component default". -/
structure ItemConfig where
  openOverride : Option Bool
  disabled : Bool
deriving DecidableEq, Repr

/-- Component-level configuration parsed from HTML attributes
(src/types: `AccordionConfig`). `openDefault` ranges over the strings
"all", "first", "none" as in the source. `speed` is a JS number; the
embedded parser produces an `Int` (NaN is handled before this record is
built). -/
structure AccordionConfig where
  openDefault : String
  allowMultiple : Bool
  speed : Int
  easing : String
  reduceMotion : Bool
  linked : Bool
deriving DecidableEq, Repr

/-- The per-item mutable state captured by `initItem`'s closures: the
`isOpen` boolean plus every element property that `initItem`, `open`
and `close` write. `scrollHeight` models the measured
`contentElement.scrollHeight`, an environment-supplied constant in this
embedding. -/
structure ItemState where
  config : ItemConfig
  scrollHeight : Nat
  isOpen : Bool
  inert : Bool
  height : String
  contentTransition : String
  iconTransition : String
  iconTransform : String
  iconVisibility : String
  ariaExpanded : String
  tabindex : String
  cursor : String
  ariaDisabled : Option String
deriving DecidableEq, Repr

/-- Embedding of `initItem` (src/init-item.ts, lines 28-95): resolves
the initial open state (item override, else component default) and
writes the initial styles and ARIA attributes. -/
def initItem (itemCfg : ItemConfig) (acc : AccordionConfig) (isFirst : Bool)
    (scrollHeight : Nat) : ItemState :=
  let shouldOpenInitially :=
    match itemCfg.openOverride with
    | some b => b
    | Option.none =>
      if acc.openDefault == "all" then true
      else if acc.openDefault == "first" && isFirst then true
      else false
  let isOpen := shouldOpenInitially
  let transition :=
    if acc.reduceMotion then "none"
    else "height " ++ toString acc.speed ++ "ms " ++ acc.easing
  let iconTransition :=
    if acc.reduceMotion then "none"
    else "transform " ++ toString acc.speed ++ "ms " ++ acc.easing
  { config := itemCfg
    scrollHeight := scrollHeight
    isOpen := isOpen
    inert := !isOpen
    height := if isOpen then "auto" else "0px"
    contentTransition := transition
    iconTransition := iconTransition
    iconTransform :=
      if itemCfg.disabled then ""
      else if isOpen then "rotate(180deg)" else ""
    iconVisibility := if itemCfg.disabled then "hidden" else ""
    ariaExpanded := if isOpen then "true" else "false"
    tabindex := if itemCfg.disabled then "-1" else "0"
    cursor := if itemCfg.disabled then "default" else "pointer"
    ariaDisabled := if itemCfg.disabled then some "true" else Option.none }

/-- Embedding of the `open` closure (src/init-item.ts, lines 100-107):
no-op when already open; otherwise sets `isOpen`, clears `inert`, sets
the height to the measured scroll height, rotates the icon, and sets
`aria-expanded` to "true". -/
def openItem (s : ItemState) : ItemState :=
  if s.isOpen then s
  else
    { s with
      isOpen := true
      inert := false
      height := toString s.scrollHeight ++ "px"
      iconTransform := "rotate(180deg)"
      ariaExpanded := "true" }

/-- Embedding of the `close` closure (src/init-item.ts, lines 112-122):
no-op when already closed; otherwise clears `isOpen`, sets `inert`,
pins the height to the scroll height, forces a reflow, then sets the
height to "0px" (the final style value), rotates the icon back, and
sets `aria-expanded` to "false". -/
def closeItem (s : ItemState) : ItemState :=
  if !s.isOpen then s
  else
    { s with
      isOpen := false
      inert := true
      height := "0px"
      iconTransform := "rotate(0deg)"
      ariaExpanded := "false" }

/-- Indexed map over the sibling list, mirroring the `for ... of
allItems` loops in `toggle` where the action taken for a sibling depends
on whether it is the toggled item itself. -/
def mapSiblings (f : Nat → ItemState → ItemState) : Nat → List ItemState → List ItemState
  | _, [] => []
  | k, s :: rest => f k s :: mapSiblings f (k + 1) rest

/-- Embedding of the `toggle` closure of item `i` (src/init-item.ts,
lines 129-156) acting on the sibling list `items`. No-op when the item
is disabled. In linked mode every non-disabled sibling (the item
included) is driven to the opposite of the item's current state. In
non-linked mode an open item is closed; a closed item is opened, after
first closing every other sibling (disabled or not) when
`allowMultiple` is false. -/
def toggle (acc : AccordionConfig) (items : List ItemState) (i : Nat) : List ItemState :=
  match items.get? i with
  | Option.none => items
  | some item =>
    if item.config.disabled then items
    else if acc.linked then
      if item.isOpen then
        items.map (fun other => if other.config.disabled then other else closeItem other)
      else
        items.map (fun other => if other.config.disabled then other else openItem other)
    else if item.isOpen then
      items.set i (closeItem item)
    else if !acc.allowMultiple then
      mapSiblings (fun j other => if j == i then openItem other else closeItem other) 0 items
    else
      items.set i (openItem item)

/-- The accordion controller's `open(index)` (src/init-accordion.ts,
`items[index]?.open?.()`): opens the item at `index` if it exists,
silently ignoring an out-of-range index. -/
def controllerOpen (items : List ItemState) (i : Nat) : List ItemState :=
  match items.get? i with
  | Option.none => items
  | some item => items.set i (openItem item)

/-- The accordion controller's `close(index)`
(src/init-accordion.ts, `items[index]?.close?.()`). -/
def controllerClose (items : List ItemState) (i : Nat) : List ItemState :=
  match items.get? i with
  | Option.none => items
  | some item => items.set i (closeItem item)

/-- The accordion controller's `openAll` (src/init-accordion.ts):
calls `open` on every item. -/
def openAll (items : List ItemState) : List ItemState :=
  items.map openItem

/-- The accordion controller's `closeAll` (src/init-accordion.ts):
calls `close` on every item. -/
def closeAll (items : List ItemState) : List ItemState :=
  items.map closeItem

/-- One child element carrying `accordionary="item"`: whether each
required sub-element is present, its configuration attributes, and the
measured scroll height of its content panel. -/
structure ItemElem where
  hasHeader : Bool
  hasContent : Bool
  hasIcon : Bool
  openAttr : Option String
  disableAttr : Option String
  scrollHeight : Nat
deriving DecidableEq, Repr

/-- The accordion component root element as `initAccordion` reads it:
the idempotency marker (`data-accordionary-initialized`), the five
configuration attributes, and the children carrying
`accordionary="item"`. -/
structure ComponentElem where
  initialized : Bool
  openAttr : Option String
  multipleAttr : Option String
  speedAttr : Option String
  easingAttr : Option String
  linkAttr : Option String
  itemChildren : List ItemElem
deriving DecidableEq, Repr

/-- JS truthiness of a `getAttribute` result: truthy exactly when the
attribute is present with a non-empty value. -/
def strTruthy : Option String → Bool
  | Option.none => false
  | some s => s != ""

/-- Accumulate the numeric value of a run of decimal digits. -/
def digitsToNat (cs : List Char) : Nat :=
  cs.foldl (fun acc c => acc * 10 + (c.toNat - 48)) 0

/-- Embedding of JS `parseInt(s, 10)`: skip leading whitespace, read an
optional sign and then a maximal run of decimal digits, ignoring any
trailing characters; `none` models NaN (no digit found). -/
def jsParseInt (s : String) : Option Int :=
  let cs := s.data.dropWhile (fun c => c == ' ' || c == '\t' || c == '\n' || c == '\r')
  let signAndRest : Bool × List Char :=
    match cs with
    | '-' :: r => (true, r)
    | '+' :: r => (false, r)
    | r => (false, r)
  let ds := signAndRest.2.takeWhile Char.isDigit
  if ds.isEmpty then Option.none
  else if signAndRest.1 then some (-(digitsToNat ds : Int))
  else some ((digitsToNat ds : Int))

/-- Warning text for an invalid `accordionary-open` component value. -/
def openWarning (v : String) : String :=
  "Invalid accordionary-open=\"" ++ v ++
    "\". Expected \"all\", \"first\", or \"none\". Defaulting to \"none\"."

/-- Warning text for an invalid `accordionary-multiple` value. -/
def multipleWarning (v : String) : String :=
  "Invalid accordionary-multiple=\"" ++ v ++
    "\". Expected \"true\" or \"false\". Defaulting to \"true\"."

/-- Warning text for an invalid `accordionary-link` value. -/
def linkWarning (v : String) : String :=
  "Invalid accordionary-link=\"" ++ v ++
    "\". Expected \"true\" or \"false\". Defaulting to \"false\"."

/-- Warning text for an invalid `accordionary-speed` value. -/
def speedWarning (v : String) : String :=
  "Invalid accordionary-speed=\"" ++ v ++
    "\". Expected a positive number in milliseconds. Defaulting to 300."

/-- Warning text when a component has no item children. -/
def noItemsWarning : String :=
  "No items found. Add elements with accordionary=\"item\" inside your component."

/-- Error text for an item child missing its header element. -/
def headerError : String :=
  "Missing header element. Add accordionary=\"header\" inside this item."

/-- Error text for an item child missing its content element. -/
def contentError : String :=
  "Missing content element. Add accordionary=\"content\" inside this item."

/-- Error text for an item child missing its icon element. -/
def iconError : String :=
  "Missing icon element. Add accordionary=\"icon\" inside your header."

/-- Warning text for an invalid item-level `accordionary-open` value. -/
def itemOpenWarning (v : String) : String :=
  "Invalid accordionary-open=\"" ++ v ++ "\" on item. Expected \"true\" or \"false\"."

/-- Embedding of the component-level configuration parsing and
validation of `initAccordion` (src/init-accordion.ts, lines 43-90):
returns the resulting `AccordionConfig` and the validation warnings, in
source order (open, multiple, link, speed). -/
def parseAccordionConfig (prefersReducedMotion : Bool) (comp : ComponentElem) :
    AccordionConfig × List String :=
  let w1 :=
    if strTruthy comp.openAttr &&
        !(comp.openAttr == some "all" || comp.openAttr == some "first" ||
          comp.openAttr == some "none") then
      [openWarning (comp.openAttr.getD "")]
    else []
  let w2 :=
    if strTruthy comp.multipleAttr &&
        !(comp.multipleAttr == some "true" || comp.multipleAttr == some "false") then
      [multipleWarning (comp.multipleAttr.getD "")]
    else []
  let w3 :=
    if strTruthy comp.linkAttr &&
        !(comp.linkAttr == some "true" || comp.linkAttr == some "false") then
      [linkWarning (comp.linkAttr.getD "")]
    else []
  let parsedSpeed : Option Int :=
    if strTruthy comp.speedAttr then jsParseInt (comp.speedAttr.getD "")
    else some 300
  let speedInvalid : Bool :=
    match parsedSpeed with
    | Option.none => true
    | some v => v < 0
  let w4 :=
    if strTruthy comp.speedAttr && speedInvalid then
      [speedWarning (comp.speedAttr.getD "")]
    else []
  let config : AccordionConfig :=
    { openDefault :=
        if comp.openAttr == some "all" then "all"
        else if comp.openAttr == some "first" then "first"
        else "none"
      allowMultiple := comp.multipleAttr != some "false"
      speed :=
        match parsedSpeed with
        | Option.none => 300
        | some v => if v < 0 then 300 else v
      easing := if strTruthy comp.easingAttr then comp.easingAttr.getD "" else "ease"
      reduceMotion := prefersReducedMotion
      linked := comp.linkAttr == some "true" }
  (config, w1 ++ w2 ++ w3 ++ w4)

/-- Embedding of the item-level configuration parsing of
`initAccordion` (src/init-accordion.ts, lines 133-153). -/
def parseItemConfig (it : ItemElem) : ItemConfig :=
  { openOverride :=
      if it.openAttr == some "true" then some true
      else if it.openAttr == some "false" then some false
      else Option.none
    disabled := it.disableAttr == some "true" }

/-- Modelled from the spec: the select-util module that the accordion
initializer imports (exporting `error`, `warn` and the sub-element
lookup `select`) is not among the source files; only an older variant
of select-util (whose `select` throws and which exports neither `error`
nor `warn`) is present, paired with the older orchestrator variant.
Per the spec (sections 4.2 and 7), the initializer skips — with a
reported error — any child missing a required header, content, or icon
sub-element, so the lookup it uses yields the element or a
null-equivalent rather than raising. Here element presence is a
boolean, and the lookup yields evidence of presence or `none`. -/
def select (present : Bool) : Option Unit :=
  if present then some () else Option.none

/-- Embedding of the item-collection loop of `initAccordion`
(src/init-accordion.ts, lines 105-162): for each child, look up the
header, content and icon sub-elements, skipping the child with a
reported error when one is missing; otherwise parse its item-level
configuration (warning on an invalid `accordionary-open` value) and
record it. Returns the item records (configuration plus content scroll
height), the warnings, and the errors, each in source order. -/
def collectItems : List ItemElem → List (ItemConfig × Nat) × List String × List String
  | [] => ([], [], [])
  | it :: rest =>
    let r := collectItems rest
    match select it.hasHeader with
    | Option.none => (r.1, r.2.1, headerError :: r.2.2)
    | some _ =>
      match select it.hasContent with
      | Option.none => (r.1, r.2.1, contentError :: r.2.2)
      | some _ =>
        match select it.hasIcon with
        | Option.none => (r.1, r.2.1, iconError :: r.2.2)
        | some _ =>
          let w :=
            if strTruthy it.openAttr &&
                !(it.openAttr == some "true" || it.openAttr == some "false") then
              [itemOpenWarning (it.openAttr.getD "")]
            else []
          ((parseItemConfig it, it.scrollHeight) :: r.1, w ++ r.2.1, r.2.2)

/-- Embedding of `items.forEach((item, index) => initItem(item, config,
index === 0, items))` (src/init-accordion.ts, lines 165-167): the item
at index 0 is initialized with `isFirst = true`, all others with
`isFirst = false`. -/
def initItems (config : AccordionConfig) : List (ItemConfig × Nat) → List ItemState
  | [] => []
  | r :: rest => initItem r.1 config true r.2 :: rest.map (fun q => initItem q.1 config false q.2)

/-- Result of `initAccordion`: the controller's item states (or `none`
for the null return), the console warnings and errors, and the
component element after initialization (capturing the idempotency
marker mutation). -/
structure InitResult where
  controller : Option (List ItemState)
  warnings : List String
  errors : List String
  componentOut : ComponentElem
deriving DecidableEq, Repr

/-- Embedding of `initAccordion` (src/init-accordion.ts, lines 35-197):
returns null immediately when the idempotency marker is already
present; otherwise sets the marker, parses and validates the
configuration, warns and returns null when there are no item children,
and otherwise collects the valid items, initializes each, and returns
the controller. -/
def initAccordion (prefersReducedMotion : Bool) (comp : ComponentElem) : InitResult :=
  if comp.initialized then
    { controller := Option.none, warnings := [], errors := [], componentOut := comp }
  else
    let comp1 := { comp with initialized := true }
    let parsed := parseAccordionConfig prefersReducedMotion comp
    if comp.itemChildren.isEmpty then
      { controller := Option.none
        warnings := parsed.2 ++ [noItemsWarning]
        errors := []
        componentOut := comp1 }
    else
      let collected := collectItems comp.itemChildren
      { controller := some (initItems parsed.1 collected.1)
        warnings := parsed.2 ++ collected.2.1
        errors := collected.2.2
        componentOut := comp1 }

/-- The initial-state resolution policy in the spec's words (spec
section 4.1): the explicit `openOverride` if set; otherwise open if the
component `openDefault` is "all", or if it is "first" and this is the
first item in sibling order; otherwise closed. Stated separately from
`initItem` so the code's behavior can be compared against it. -/
def initialStatePolicy (acc : AccordionConfig) (cfg : ItemConfig) (isFirst : Bool) : Bool :=
  match cfg.openOverride with
  | some b => b
  | Option.none =>
    if acc.openDefault == "all" then true
    else if acc.openDefault == "first" && isFirst then true
    else false

/-- The rotation angle, in degrees, that a CSS transform value denotes
for the indicator icon: 180 for the expanded orientation, 0 for the
neutral orientation (both the untouched initial style and
"rotate(0deg)"). -/
def iconAngle (t : String) : Nat :=
  if t == "rotate(180deg)" then 180 else 0

/-- Whether an item child has all three required sub-elements. -/
def itemValid (it : ItemElem) : Bool :=
  it.hasHeader && it.hasContent && it.hasIcon

/-- The error `initAccordion` reports for an invalid item child, in the
source's check order (header, then content, then icon). -/
def missingError (it : ItemElem) : String :=
  if !it.hasHeader then headerError
  else if !it.hasContent then contentError
  else iconError

/-- A single-open, non-linked component configuration (the parse result
for `accordionary-multiple="false"` with all other attributes absent and
no reduced-motion signal). -/
def accSingleOpen : AccordionConfig :=
  { openDefault := "none", allowMultiple := false, speed := 300, easing := "ease",
    reduceMotion := false, linked := false }

/-- A multi-open, non-linked component configuration. -/
def accMulti : AccordionConfig :=
  { accSingleOpen with allowMultiple := true }

/-- A linked component configuration. -/
def accLinked : AccordionConfig :=
  { accSingleOpen with linked := true }

/-- An item configuration with no override and not disabled. -/
def plainCfg : ItemConfig :=
  { openOverride := Option.none, disabled := false }

/-- A freshly initialized non-first, non-disabled item under
`accSingleOpen`: starts closed. -/
def closedDemo : ItemState :=
  initItem plainCfg accSingleOpen false 100

/-- `closedDemo` after a programmatic `open()`: an open item. -/
def openDemo : ItemState :=
  openItem closedDemo

/-- A disabled item initialized with an explicit open override: starts
open, stays disabled. -/
def disabledOpenDemo : ItemState :=
  initItem { openOverride := some true, disabled := true } accSingleOpen false 100

/-- A freshly initialized non-first, non-disabled item under
`accLinked`: starts closed. -/
def closedLinkedDemo : ItemState :=
  initItem plainCfg accLinked false 100

/-- A valid item child with no item-level attributes. -/
def demoChild : ItemElem :=
  { hasHeader := true, hasContent := true, hasIcon := true,
    openAttr := Option.none, disableAttr := Option.none, scrollHeight := 100 }

/-- An item child missing its content sub-element. -/
def invalidChild : ItemElem :=
  { demoChild with hasContent := false }

/-- A 3-item component with `accordionary-open="first"` and
`accordionary-multiple="false"` (the C1 scenario). -/
def firstSingleComp : ComponentElem :=
  { initialized := false, openAttr := some "first", multipleAttr := some "false",
    speedAttr := Option.none, easingAttr := Option.none, linkAttr := Option.none,
    itemChildren := [demoChild, demoChild, demoChild] }

/-- The configuration `initAccordion` parses for `firstSingleComp`. -/
def firstSingleCfg : AccordionConfig :=
  (parseAccordionConfig false firstSingleComp).1

/-- The item states `initAccordion` constructs for `firstSingleComp`. -/
def firstSingleStates : List ItemState :=
  ((initAccordion false firstSingleComp).controller).getD []

/-- A 2-item component with `accordionary-link="true"` (the C2
scenario). -/
def linkedComp : ComponentElem :=
  { initialized := false, openAttr := Option.none, multipleAttr := Option.none,
    speedAttr := Option.none, easingAttr := Option.none, linkAttr := some "true",
    itemChildren := [demoChild, demoChild] }

/-- The configuration `initAccordion` parses for `linkedComp`. -/
def linkedCfg : AccordionConfig :=
  (parseAccordionConfig false linkedComp).1

/-- The item states `initAccordion` constructs for `linkedComp`. -/
def linkedStates : List ItemState :=
  ((initAccordion false linkedComp).controller).getD []

/-- A component whose `accordionary-speed` is the unparsable "abc"
(the C8 scenario). -/
def speedComp : ComponentElem :=
  { initialized := false, openAttr := Option.none, multipleAttr := Option.none,
    speedAttr := some "abc", easingAttr := Option.none, linkAttr := Option.none,
    itemChildren := [demoChild] }

/-- A component with one valid and one invalid child (for C6). -/
def mixedComp : ComponentElem :=
  { initialized := false, openAttr := Option.none, multipleAttr := Option.none,
    speedAttr := Option.none, easingAttr := Option.none, linkAttr := Option.none,
    itemChildren := [demoChild, invalidChild] }

/-- A component root already carrying the idempotency marker (for C9). -/
def initializedComp : ComponentElem :=
  { firstSingleComp with initialized := true }

/-! ## Helper lemmas -/

/-- `open()` always leaves the item open. -/
theorem openItem_isOpen (s : ItemState) : (openItem s).isOpen = true := by
  cases h : s.isOpen <;> simp [openItem, h]

/-- `close()` always leaves the item closed. -/
theorem closeItem_isOpen (s : ItemState) : (closeItem s).isOpen = false := by
  cases h : s.isOpen <;> simp [closeItem, h]

/-- Lookup through `mapSiblings`: the element at position `j` is the
original element transformed at index `k + j`. -/
theorem mapSiblings_get (f : Nat → ItemState → ItemState) (l : List ItemState) :
    ∀ (k j : Nat), (mapSiblings f k l).get? j = (l.get? j).map (fun o => f (k + j) o) := by
  induction l with
  | nil => intro k j; simp [mapSiblings]
  | cons s rest ih =>
    intro k j
    cases j with
    | zero => simp [mapSiblings]
    | succ j =>
      simp only [mapSiblings, List.get?_cons_succ]
      rw [ih (k + 1) j, show k + 1 + j = k + (j + 1) from by omega]

/-- Every sibling the single-open cascade maps at an index above the
toggled index comes out closed. -/
theorem cascade_high_closed (i : Nat) (l : List ItemState) :
    ∀ k, i < k → ∀ a ∈ mapSiblings
      (fun j other => if j == i then openItem other else closeItem other) k l,
      a.isOpen = false := by
  induction l with
  | nil => intro k _ a ha; simp [mapSiblings] at ha
  | cons s rest ih =>
    intro k hk a ha
    rw [show mapSiblings (fun j other => if j == i then openItem other else closeItem other)
          k (s :: rest)
        = (if k == i then openItem s else closeItem s)
          :: mapSiblings (fun j other => if j == i then openItem other else closeItem other)
            (k + 1) rest
      from rfl, List.mem_cons] at ha
    rcases ha with h | h
    · have hki : k ≠ i := by omega
      rw [h]
      simp [hki, closeItem_isOpen]
    · exact ih (k + 1) (by omega) a h

/-- The part of the single-open cascade above the toggled index
contributes no open sibling. -/
theorem countP_cascade_high (i : Nat) (l : List ItemState) (k : Nat) (hk : i < k) :
    (mapSiblings (fun j other => if j == i then openItem other else closeItem other) k
      l).countP (fun s => s.isOpen) = 0 := by
  rw [List.countP_eq_zero]
  intro a ha
  simp [cascade_high_closed i l k hk a ha]

/-- The single-open cascade leaves at most one sibling open. -/
theorem countP_cascade_le_one (i : Nat) (l : List ItemState) :
    ∀ k, (mapSiblings (fun j other => if j == i then openItem other else closeItem other) k
      l).countP (fun s => s.isOpen) ≤ 1 := by
  induction l with
  | nil => intro k; simp [mapSiblings]
  | cons s rest ih =>
    intro k
    rw [show mapSiblings (fun j other => if j == i then openItem other else closeItem other)
          k (s :: rest)
        = (if k == i then openItem s else closeItem s)
          :: mapSiblings (fun j other => if j == i then openItem other else closeItem other)
            (k + 1) rest
      from rfl, List.countP_cons]
    by_cases hk : k = i
    · subst hk
      rw [countP_cascade_high k rest (k + 1) (by omega)]
      simp [openItem_isOpen]
    · have hval : (if k == i then openItem s else closeItem s).isOpen = false := by
        simp [hk, closeItem_isOpen]
      rw [hval]
      simpa using ih (k + 1)

/-- Lookup through `initItems`: the state at position `k` is the
initialization of the record at `k`, first exactly when `k = 0`. -/
theorem initItems_get (config : AccordionConfig) (records : List (ItemConfig × Nat)) :
    ∀ k, (initItems config records).get? k =
      (records.get? k).map (fun r => initItem r.1 config (k == 0) r.2) := by
  cases records with
  | nil => intro k; simp [initItems]
  | cons r rest =>
    intro k
    cases k with
    | zero => simp [initItems]
    | succ k => simp [initItems, List.get?_map]

/-- The item-collection loop keeps exactly the valid children (in
order, with their parsed configurations) and reports exactly one
missing-element error per invalid child (in order). -/
theorem collectItems_spec (l : List ItemElem) :
    (collectItems l).1 =
      (l.filter itemValid).map (fun it => (parseItemConfig it, it.scrollHeight)) ∧
    (collectItems l).2.2 = (l.filter (fun it => !itemValid it)).map missingError := by
  induction l with
  | nil => simp [collectItems]
  | cons it rest ih =>
    by_cases h1 : it.hasHeader
    · by_cases h2 : it.hasContent
      · by_cases h3 : it.hasIcon
        · constructor
          · simp [collectItems, select, h1, h2, h3, itemValid, ih.1]
          · simp [collectItems, select, h1, h2, h3, itemValid, ih.2]
        · constructor
          · simp [collectItems, select, h1, h2, h3, itemValid, ih.1]
          · simp [collectItems, select, h1, h2, h3, itemValid, missingError, ih.2]
      · constructor
        · simp [collectItems, select, h1, h2, itemValid, ih.1]
        · simp [collectItems, select, h1, h2, itemValid, missingError, ih.2]
    · constructor
      · simp [collectItems, select, h1, itemValid, ih.1]
      · simp [collectItems, select, h1, itemValid, missingError, ih.2]

/-! ## Claim theorems -/

/-- C1: For every non-disabled item in a component with linked=false,
toggle() when open closes the item and leaves every sibling untouched;
when closed with allowMultiple=false it closes every other sibling
(disabled or not) and opens the item; when closed with
allowMultiple=true it opens only the item. In the 3-item scenario with
openDefault="first" and allowMultiple=false, item 0 starts open, items
1-2 closed, and toggling item 1 yields closed/open/closed. -/
theorem toggle_nonlinked_behavior (acc : AccordionConfig) (items : List ItemState)
    (i : Nat) (it : ItemState) (hl : acc.linked = false)
    (hi : items.get? i = some it) (hd : it.config.disabled = false) :
    (it.isOpen = true → toggle acc items i = items.set i (closeItem it)) ∧
    (it.isOpen = false → acc.allowMultiple = true →
      toggle acc items i = items.set i (openItem it)) ∧
    (it.isOpen = false → acc.allowMultiple = false →
      (toggle acc items i).get? i = some (openItem it) ∧
      ∀ j o, j ≠ i → items.get? j = some o →
        (toggle acc items i).get? j = some (closeItem o)) ∧
    (firstSingleStates.map (fun s => s.isOpen) = [true, false, false] ∧
      (toggle firstSingleCfg firstSingleStates 1).map (fun s => s.isOpen)
        = [false, true, false]) := by
  refine ⟨?_, ?_, ?_, by decide⟩
  · intro ho
    unfold toggle
    rw [hi]
    simp [hd, hl, ho]
  · intro ho hm
    unfold toggle
    rw [hi]
    simp [hd, hl, ho, hm]
  · intro ho hm
    have ht : toggle acc items i =
        mapSiblings (fun j other => if j == i then openItem other else closeItem other)
          0 items := by
      unfold toggle
      rw [hi]
      simp [hd, hl, ho, hm]
    constructor
    · rw [ht, mapSiblings_get]
      simp only [Nat.zero_add, beq_self_eq_true, if_true]
      rw [hi]
      rfl
    · intro j o hj hjo
      rw [ht, mapSiblings_get]
      simp [hjo, hj]
      exact ⟨o, by simpa using hjo, rfl⟩

/-- C2: For every non-disabled item in a component with linked=true,
toggle() drives every non-disabled sibling (the item included) to the
opposite of the item's current state, and leaves disabled siblings
untouched. In the 2-item scenario both items start closed, toggling
item 0 opens both, and toggling item 0 again closes both. -/
theorem toggle_linked_behavior (acc : AccordionConfig) (items : List ItemState)
    (i : Nat) (it : ItemState) (hl : acc.linked = true)
    (hi : items.get? i = some it) (hd : it.config.disabled = false) :
    (∀ j o, items.get? j = some o →
      (toggle acc items i).get? j =
        some (if o.config.disabled then o
          else if it.isOpen then closeItem o else openItem o)) ∧
    (∀ j o, items.get? j = some o → o.config.disabled = false →
      ((toggle acc items i).get? j).map (fun s => s.isOpen) = some (!it.isOpen)) ∧
    (linkedStates.map (fun s => s.isOpen) = [false, false] ∧
      (toggle linkedCfg linkedStates 0).map (fun s => s.isOpen) = [true, true] ∧
      (toggle linkedCfg (toggle linkedCfg linkedStates 0) 0).map (fun s => s.isOpen)
        = [false, false]) := by
  have hmain : ∀ j o, items.get? j = some o →
      (toggle acc items i).get? j =
        some (if o.config.disabled then o
          else if it.isOpen then closeItem o else openItem o) := by
    intro j o hjo
    cases hio : it.isOpen with
    | true =>
      have ht : toggle acc items i =
          items.map (fun other => if other.config.disabled then other else closeItem other) := by
        unfold toggle
        rw [hi]
        simp [hd, hl, hio]
      rw [ht, List.get?_map, hjo]
      simp [hio]
    | false =>
      have ht : toggle acc items i =
          items.map (fun other => if other.config.disabled then other else openItem other) := by
        unfold toggle
        rw [hi]
        simp [hd, hl, hio]
      rw [ht, List.get?_map, hjo]
      simp [hio]
  refine ⟨hmain, ?_, by decide⟩
  intro j o hjo hod
  rw [hmain j o hjo]
  cases hio : it.isOpen <;> simp [hod, hio, closeItem_isOpen, openItem_isOpen]

/-- C3: Immediately after construction, an item's isOpen equals the
initial-state resolution policy (explicit override, else open when
openDefault is "all", else open when openDefault is "first" and the
item is first in sibling order, else closed); within a component the
item at index 0 is the first in sibling order. -/
theorem initial_state_resolution :
    (∀ (itemCfg : ItemConfig) (acc : AccordionConfig) (isFirst : Bool) (sh : Nat),
      (initItem itemCfg acc isFirst sh).isOpen = initialStatePolicy acc itemCfg isFirst) ∧
    (∀ (config : AccordionConfig) (records : List (ItemConfig × Nat)) (k : Nat)
        (r : ItemConfig × Nat), records.get? k = some r →
      ((initItems config records).get? k).map (fun s => s.isOpen) =
        some (initialStatePolicy config r.1 (k == 0))) := by
  have h1 : ∀ (itemCfg : ItemConfig) (acc : AccordionConfig) (isFirst : Bool) (sh : Nat),
      (initItem itemCfg acc isFirst sh).isOpen = initialStatePolicy acc itemCfg isFirst := by
    intro itemCfg acc isFirst sh
    cases h : itemCfg.openOverride <;> simp [initItem, initialStatePolicy, h]
  refine ⟨h1, ?_⟩
  intro config records k r hk
  rw [initItems_get, hk]
  simp [h1]

/-- C4: In a component with allowMultiple=false and linked=false,
whatever the prior state of the sibling set, toggling a closed
non-disabled item (the interaction that opens it) leaves at most one
item of the sibling set open. -/
theorem single_open_invariant (acc : AccordionConfig) (items : List ItemState)
    (i : Nat) (it : ItemState) (hl : acc.linked = false) (hm : acc.allowMultiple = false)
    (hi : items.get? i = some it) (hd : it.config.disabled = false)
    (ho : it.isOpen = false) :
    (toggle acc items i).countP (fun s => s.isOpen) ≤ 1 := by
  have ht : toggle acc items i =
      mapSiblings (fun j other => if j == i then openItem other else closeItem other)
        0 items := by
    unfold toggle
    rw [hi]
    simp [hd, hl, ho, hm]
  rw [ht]
  exact countP_cascade_le_one i items 0

/-- C5 (counterexample): in a single-open, non-linked component, a user
toggle on a non-disabled sibling closes a disabled open item — the
disabled item's isOpen does change as a result of user interaction on a
sibling's heading, contrary to the claim. -/
theorem disabled_closed_by_sibling_cascade :
    disabledOpenDemo.config.disabled = true ∧
    disabledOpenDemo.isOpen = true ∧
    accSingleOpen.allowMultiple = false ∧
    accSingleOpen.linked = false ∧
    closedDemo.config.disabled = false ∧
    ((toggle accSingleOpen [disabledOpenDemo, closedDemo] 1).get? 0).map (fun s => s.isOpen)
      = some false := by
  decide

/-- C5 (amended): a disabled item's own toggle() is a no-op; in linked
mode it is excluded from a sibling's toggle cascade; in non-linked mode
a sibling's toggle leaves it untouched except for the single-open
cascade (allowMultiple=false, sibling closed), which calls close() on
it like any other sibling; direct programmatic open() and close() still
change its state. -/
theorem disabled_item_interaction (acc : AccordionConfig) (items : List ItemState)
    (i : Nat) :
    (∀ it, items.get? i = some it → it.config.disabled = true →
      toggle acc items i = items) ∧
    (∀ j o, acc.linked = true → items.get? j = some o → o.config.disabled = true →
      (toggle acc items i).get? j = some o) ∧
    (∀ it j o, acc.linked = false → items.get? i = some it → j ≠ i →
      items.get? j = some o → (it.isOpen = true ∨ acc.allowMultiple = true) →
      (toggle acc items i).get? j = some o) ∧
    (∀ it j o, acc.linked = false → acc.allowMultiple = false →
      items.get? i = some it → it.config.disabled = false → it.isOpen = false →
      j ≠ i → items.get? j = some o →
      (toggle acc items i).get? j = some (closeItem o)) ∧
    (∀ s : ItemState, s.isOpen = false → (openItem s).isOpen = true) ∧
    (∀ s : ItemState, s.isOpen = true → (closeItem s).isOpen = false) := by
  refine ⟨?_, ?_, ?_, ?_, ?_, ?_⟩
  · intro it hi hdis
    unfold toggle
    rw [hi]
    simp [hdis]
  · intro j o hl hjo hod
    cases hii : items.get? i with
    | none =>
      unfold toggle
      rw [hii, hjo]
    | some it =>
      by_cases hd : it.config.disabled
      · have : toggle acc items i = items := by
          unfold toggle
          rw [hii]
          simp [hd]
        rw [this, hjo]
      · cases hio : it.isOpen with
        | true =>
          have ht : toggle acc items i =
              items.map (fun other => if other.config.disabled then other
                else closeItem other) := by
            unfold toggle
            rw [hii]
            simp [hd, hl, hio]
          rw [ht, List.get?_map, hjo]
          simp [hod]
        | false =>
          have ht : toggle acc items i =
              items.map (fun other => if other.config.disabled then other
                else openItem other) := by
            unfold toggle
            rw [hii]
            simp [hd, hl, hio]
          rw [ht, List.get?_map, hjo]
          simp [hod]
  · intro it j o hl hii hj hjo hcase
    by_cases hd : it.config.disabled
    · have : toggle acc items i = items := by
        unfold toggle
        rw [hii]
        simp [hd]
      rw [this, hjo]
    · rcases hcase with ho | hm
      · have ht : toggle acc items i = items.set i (closeItem it) := by
          unfold toggle
          rw [hii]
          simp [hd, hl, ho]
        rw [ht, List.get?_set_ne _ _ (Ne.symm hj), hjo]
      · cases hio : it.isOpen with
        | true =>
          have ht : toggle acc items i = items.set i (closeItem it) := by
            unfold toggle
            rw [hii]
            simp [hd, hl, hio]
          rw [ht, List.get?_set_ne _ _ (Ne.symm hj), hjo]
        | false =>
          have ht : toggle acc items i = items.set i (openItem it) := by
            unfold toggle
            rw [hii]
            simp [hd, hl, hio, hm]
          rw [ht, List.get?_set_ne _ _ (Ne.symm hj), hjo]
  · intro it j o hl hm hii hd hio hj hjo
    have ht : toggle acc items i =
        mapSiblings (fun k other => if k == i then openItem other else closeItem other)
          0 items := by
      unfold toggle
      rw [hii]
      simp [hd, hl, hio, hm]
    rw [ht, mapSiblings_get]
    simp [hjo, hj]
    exact ⟨o, by simpa using hjo, rfl⟩
  · intro s _
    exact openItem_isOpen s
  · intro s _
    exact closeItem_isOpen s

/-- C6: the initializer skips — with a reported error — every child
missing a required header, content, or icon sub-element, keeps exactly
the valid children (with their parsed configurations, in order), and
still returns a controller: no exception crosses the public
initialization API. The sub-element lookup is modelled from the spec
(see `select`). -/
theorem invalid_children_skipped (prm : Bool) (comp : ComponentElem)
    (hinit : comp.initialized = false) (hne : comp.itemChildren ≠ []) :
    (collectItems comp.itemChildren).1 =
      (comp.itemChildren.filter itemValid).map
        (fun it => (parseItemConfig it, it.scrollHeight)) ∧
    (collectItems comp.itemChildren).2.2 =
      (comp.itemChildren.filter (fun it => !itemValid it)).map missingError ∧
    (initAccordion prm comp).controller.isSome = true ∧
    (initAccordion prm comp).errors = (collectItems comp.itemChildren).2.2 := by
  refine ⟨(collectItems_spec comp.itemChildren).1, (collectItems_spec comp.itemChildren).2,
    ?_, ?_⟩
  · cases hc : comp.itemChildren with
    | nil => exact absurd hc hne
    | cons a l => simp [initAccordion, hinit, hc]
  · cases hc : comp.itemChildren with
    | nil => exact absurd hc hne
    | cons a l => simp [initAccordion, hinit, hc]

/-- C7: open() and close() are idempotent (the full item state — isOpen,
aria-expanded, icon orientation, inert marking, heights — after two
calls equals the state after one), and on a well-formed state an
open()-then-close() pair starting closed, or a close()-then-open() pair
starting open, restores the heading's aria-expanded flag and the icon's
orientation. -/
theorem open_close_algebra (s : ItemState) :
    (openItem (openItem s) = openItem s) ∧
    (closeItem (closeItem s) = closeItem s) ∧
    (s.isOpen = false → s.ariaExpanded = "false" → iconAngle s.iconTransform = 0 →
      (closeItem (openItem s)).ariaExpanded = s.ariaExpanded ∧
      iconAngle (closeItem (openItem s)).iconTransform = iconAngle s.iconTransform) ∧
    (s.isOpen = true → s.ariaExpanded = "true" → iconAngle s.iconTransform = 180 →
      (openItem (closeItem s)).ariaExpanded = s.ariaExpanded ∧
      iconAngle (openItem (closeItem s)).iconTransform = iconAngle s.iconTransform) := by
  refine ⟨?_, ?_, ?_, ?_⟩
  · cases h : s.isOpen <;> simp [openItem, h]
  · cases h : s.isOpen <;> simp [closeItem, h]
  · intro ho ha hic
    rw [ha, hic]
    simp [openItem, closeItem, ho, iconAngle]
  · intro ho ha hic
    rw [ha, hic]
    simp [openItem, closeItem, ho, iconAngle]

/-- C8: a component whose accordionary-speed attribute does not parse
as a non-negative integer (here "abc") gets an effective speed of
300 ms, a reported validation warning, and initialization completes
normally (a controller is returned, nothing is thrown). -/
theorem invalid_speed_defaults (prm : Bool) (comp : ComponentElem)
    (hs : comp.speedAttr = some "abc") (hinit : comp.initialized = false) :
    (parseAccordionConfig prm comp).1.speed = 300 ∧
    speedWarning "abc" ∈ (parseAccordionConfig prm comp).2 ∧
    speedWarning "abc" ∈ (initAccordion prm comp).warnings ∧
    (comp.itemChildren ≠ [] → (initAccordion prm comp).controller.isSome = true) := by
  have habc : jsParseInt "abc" = Option.none := by decide
  have h1 : (parseAccordionConfig prm comp).1.speed = 300 := by
    simp [parseAccordionConfig, hs, strTruthy, habc]
  have h2 : speedWarning "abc" ∈ (parseAccordionConfig prm comp).2 := by
    simp [parseAccordionConfig, hs, strTruthy, habc, List.mem_append]
  refine ⟨h1, h2, ?_, ?_⟩
  · cases hc : comp.itemChildren with
    | nil =>
      simp only [initAccordion, hinit, hc]
      simp
      exact Or.inl h2
    | cons a l =>
      simp only [initAccordion, hinit, hc]
      simp
      exact Or.inl h2
  · intro hne
    cases hc : comp.itemChildren with
    | nil => exact absurd hc hne
    | cons a l => simp [initAccordion, hinit, hc]

/-- C9: invoking the initializer on a root whose idempotency marker is
already present returns a null-equivalent result, performs no
configuration parsing or item construction (no warnings, no errors, no
controller), and leaves the component element unchanged. -/
theorem reinit_noop (prm : Bool) (comp : ComponentElem)
    (h : comp.initialized = true) :
    initAccordion prm comp =
      { controller := Option.none, warnings := [], errors := [],
        componentOut := comp } := by
  simp [initAccordion, h]

/-- C10: the controller's open/close by index (and openAll/closeAll,
and item-controller open/close, all of which invoke the same item
closures) mutate only the addressed item's state — every other index is
untouched — and do so regardless of allowMultiple, linked, or disabled
(the operations take no component configuration at all); consequently
openAll can leave more than one item open even when
allowMultiple=false. -/
theorem direct_open_close_frame :
    (∀ (items : List ItemState) (i j : Nat), j ≠ i →
      (controllerOpen items i).get? j = items.get? j ∧
      (controllerClose items i).get? j = items.get? j) ∧
    (∀ (items : List ItemState) (i : Nat) (it : ItemState), items.get? i = some it →
      (controllerOpen items i).get? i = some (openItem it) ∧
      (controllerClose items i).get? i = some (closeItem it)) ∧
    (∀ (items : List ItemState) (j : Nat) (o : ItemState), items.get? j = some o →
      (openAll items).get? j = some (openItem o) ∧
      (closeAll items).get? j = some (closeItem o)) ∧
    (accSingleOpen.allowMultiple = false ∧
      closedDemo.isOpen = false ∧
      (openAll [closedDemo, closedDemo]).countP (fun s => s.isOpen) = 2) := by
  refine ⟨?_, ?_, ?_, by decide⟩
  · intro items i j hj
    constructor
    · cases hii : items.get? i with
      | none => unfold controllerOpen; rw [hii]
      | some it =>
        unfold controllerOpen
        rw [hii]
        exact List.get?_set_ne _ _ (Ne.symm hj)
    · cases hii : items.get? i with
      | none => unfold controllerClose; rw [hii]
      | some it =>
        unfold controllerClose
        rw [hii]
        exact List.get?_set_ne _ _ (Ne.symm hj)
  · intro items i it hi
    have hlen : i < items.length := by
      by_contra hcon
      rw [List.get?_eq_none.mpr (Nat.le_of_not_lt hcon)] at hi
      exact Option.noConfusion hi
    constructor
    · unfold controllerOpen
      rw [hi]
      exact List.get?_set_eq_of_lt _ hlen
    · unfold controllerClose
      rw [hi]
      exact List.get?_set_eq_of_lt _ hlen
  · intro items j o hj
    constructor
    · unfold openAll
      rw [List.get?_map, hj]
      rfl
    · unfold closeAll
      rw [List.get?_map, hj]
      rfl

/-! ## Witnesses -/

/-- Witness for C1: toggling the open item 0 of a concrete 2-item
non-linked component closes it in place. -/
theorem toggle_nonlinked_behavior_check :
    toggle accSingleOpen [openDemo, closedDemo] 0
      = [openDemo, closedDemo].set 0 (closeItem openDemo) :=
  (toggle_nonlinked_behavior accSingleOpen [openDemo, closedDemo] 0 openDemo
    (by decide) (by decide) (by decide)).1 (by decide)

/-- Witness for C2: toggling closed item 0 of a concrete 2-item linked
component opens its non-disabled sibling at index 1. -/
theorem toggle_linked_behavior_check :
    ((toggle accLinked [closedLinkedDemo, closedLinkedDemo] 0).get? 1).map
        (fun s => s.isOpen)
      = some (!closedLinkedDemo.isOpen) :=
  (toggle_linked_behavior accLinked [closedLinkedDemo, closedLinkedDemo] 0
    closedLinkedDemo (by decide) (by decide) (by decide)).2.1 1 closedLinkedDemo
    (by decide) (by decide)

/-- Witness for C3: the single item of a concrete component starts in
the state the resolution policy predicts. -/
theorem initial_state_resolution_check :
    ((initItems accSingleOpen [(plainCfg, 100)]).get? 0).map (fun s => s.isOpen)
      = some (initialStatePolicy accSingleOpen plainCfg ((0 : Nat) == 0)) :=
  initial_state_resolution.2 accSingleOpen [(plainCfg, 100)] 0 (plainCfg, 100)
    (by decide)

/-- Witness for C4: toggling the closed item 1 of a concrete 2-item
single-open component leaves at most one item open. -/
theorem single_open_invariant_check :
    (toggle accSingleOpen [openDemo, closedDemo] 1).countP (fun s => s.isOpen) ≤ 1 :=
  single_open_invariant accSingleOpen [openDemo, closedDemo] 1 closedDemo
    (by decide) (by decide) (by decide) (by decide) (by decide)

/-- Witness for the amended C5: a disabled item's own toggle is a
no-op on a concrete 2-item component. -/
theorem disabled_item_interaction_check :
    toggle accSingleOpen [disabledOpenDemo, closedDemo] 0
      = [disabledOpenDemo, closedDemo] :=
  (disabled_item_interaction accSingleOpen [disabledOpenDemo, closedDemo] 0).1
    disabledOpenDemo (by decide) (by decide)

/-- Witness for C6: a concrete component with one valid and one invalid
child still yields a controller. -/
theorem invalid_children_skipped_check :
    (initAccordion false mixedComp).controller.isSome = true :=
  (invalid_children_skipped false mixedComp (by decide) (by decide)).2.2.1

/-- Witness for C7: open() then close() on a concrete closed item
restores its aria-expanded flag. -/
theorem open_close_algebra_check :
    (closeItem (openItem closedDemo)).ariaExpanded = closedDemo.ariaExpanded :=
  ((open_close_algebra closedDemo).2.2.1 (by decide) (by decide) (by decide)).1

/-- Witness for C8: the concrete component with
accordionary-speed="abc" parses to speed 300. -/
theorem invalid_speed_defaults_check :
    (parseAccordionConfig false speedComp).1.speed = 300 :=
  (invalid_speed_defaults false speedComp (by decide) (by decide)).1

/-- Witness for C9: re-invoking the initializer on a concrete
already-initialized component is a no-op null return. -/
theorem reinit_noop_check :
    initAccordion false initializedComp =
      { controller := Option.none, warnings := [], errors := [],
        componentOut := initializedComp } :=
  reinit_noop false initializedComp (by decide)

/-- Witness for C10: the controller's open at index 0 of a concrete
2-item list leaves index 1 untouched. -/
theorem direct_open_close_frame_check :
    (controllerOpen [closedDemo, openDemo] 0).get? 1 = [closedDemo, openDemo].get? 1 :=
  (direct_open_close_frame.1 [closedDemo, openDemo] 0 1 (by decide)).1

end Accordionary
